import Mathlib

/-!
# Verification of the visual-architecture image browser

A shallow embedding of the core logic of `src/UI_project/app.jsx`: the image
data model, the criterion match predicate, the commit paths (search-page
submit, refine-sidebar update, confirmed tag pivot), the results navigator,
the selection-state toggles and the distinct-architect list.

JavaScript strings-or-null are embedded as `Option String`; machine details
that matter are kept: JS truthiness (`!x` is true for `null`, `undefined`
and the empty string), strict equality, and `Array.filter(Boolean)`.
-/

/-- JS truthiness of a `string | null` value: `null`/`undefined` and the
empty string are falsy, every other string is truthy. -/
def jsOptTruthy : Option String → Bool
  | none => false
  | some s => !(s == "")

/-- An image record of the loaded dataset (`images` entries of the JSON
document): `imageUrl`, an optional `architect`, and a tag list. -/
structure ImageRecord where
  imageUrl : String
  architect : Option String
  tags : List String
deriving DecidableEq

/-- A search criterion: a list of selected tags and an optional architect,
exactly the `{ tags, architect }` objects built by the app. -/
structure Criterion where
  tags : List String
  architect : Option String
deriving DecidableEq

/-- The filter predicate inlined identically at the three filter sites of
`app.jsx` (`handleSearch` in `SearchPage`, `filteredImages` in
`ResultsPage`, `handleUpdateSearch`):

`const archMatch = !criteria.architect || img.architect === criteria.architect;`
`if (!archMatch) return false;`
`const tagsMatch = criteria.tags.every(tag => img.tags && img.tags.includes(tag));`
`if (!tagsMatch) return false;`
`return true;`

`img.tags` is always a list here, so the `img.tags &&` guard is the
constant-true guard of a present field. -/
def matchesCriterion (criteria : Criterion) (img : ImageRecord) : Bool :=
  let archMatch := !(jsOptTruthy criteria.architect) || (img.architect == criteria.architect)
  if !archMatch then false
  else
    let tagsMatch := criteria.tags.all (fun tag => img.tags.contains tag)
    if !tagsMatch then false
    else true

/-- `ResultsPage`: `images.filter(...)` for the active criterion. -/
def filteredImages (images : List ImageRecord) (searchCriteria : Criterion) : List ImageRecord :=
  images.filter (fun img => matchesCriterion searchCriteria img)

/-- The two views of the app: `'search'` and `'results'`. -/
inductive View
  | search
  | results
deriving DecidableEq

/-- The app-level state, flattening `App`'s state (`view`,
`currentSearchCriteria`, the loaded `images`) together with the page-local
state the claims speak about: the results cursor `currentIndex`, the two
local error messages, the sidebar-open flag and the pivot-confirmation
modal (`showConfirmModal`, `tagToSearch`). -/
structure AppState where
  images : List ImageRecord
  view : View
  currentSearchCriteria : Criterion
  currentIndex : Nat
  searchError : Option String
  sidebarSearchError : Option String
  isSidebarOpen : Bool
  showConfirmModal : Bool
  tagToSearch : Option String
deriving DecidableEq

/-- `App.handleSearch`: `setCurrentSearchCriteria(criteria); setView('results')`.
The `ResultsPage` effect keyed on `searchCriteria` then runs
`setCurrentIndex(0)` (and on first entry the page mounts with index `0`),
so the committed state carries cursor `0`. -/
def appHandleSearch (criteria : Criterion) (s : AppState) : AppState :=
  { s with currentSearchCriteria := criteria, view := View.results, currentIndex := 0 }

/-- `SearchPage.handleSearch`: clear the local error, filter the full image
list with the candidate, commit through `onSearch` (= `App.handleSearch`)
when at least one record matches, otherwise set the local error message. -/
def searchPageHandleSearch (criteria : Criterion) (s : AppState) : AppState :=
  let results := s.images.filter (fun img => matchesCriterion criteria img)
  if 0 < results.length then
    appHandleSearch criteria { s with searchError := none }
  else
    { s with searchError := some "No images found matching the selected criteria." }

/-- `ResultsPage.handleUpdateSearch`: build `newCriteria` from the sidebar
selection, filter the full image list, and on success commit through
`onSearchTag` (= `App.handleSearch`) and close the sidebar; on zero matches
set the sidebar-local error message. -/
def handleUpdateSearch (sidebarSelectedTags : List String)
    (sidebarSelectedArchitect : Option String) (s : AppState) : AppState :=
  let newCriteria : Criterion := ⟨sidebarSelectedTags, sidebarSelectedArchitect⟩
  let prospectiveResults := s.images.filter (fun img => matchesCriterion newCriteria img)
  if 0 < prospectiveResults.length then
    { appHandleSearch newCriteria s with sidebarSearchError := none, isSidebarOpen := false }
  else
    { s with sidebarSearchError := some "No images found matching the selected filters." }

/-- `ResultsPage.handleOtherTagClick`: stash the clicked tag and open the
confirmation modal. -/
def handleOtherTagClick (tag : String) (s : AppState) : AppState :=
  { s with tagToSearch := some tag, showConfirmModal := true }

/-- `ResultsPage.confirmNewSearch`: `if (tagToSearch)` — a JS truthiness
test, false for `null` and for the empty string — commit
`{ tags: [tagToSearch], architect: null }` through `onSearchTag`
(= `App.handleSearch`) with no match-count validation, then close the modal
and clear the pending tag. -/
def confirmNewSearch (s : AppState) : AppState :=
  let s1 :=
    match s.tagToSearch with
    | some t => if t == "" then s else appHandleSearch ⟨[t], none⟩ s
    | none => s
  { s1 with showConfirmModal := false, tagToSearch := none }

/-- `ResultsPage.cancelNewSearch`: close the modal and clear the pending
tag, with no other state change. -/
def cancelNewSearch (s : AppState) : AppState :=
  { s with showConfirmModal := false, tagToSearch := none }

/-- `App.handleHome`: `setView('search')` and reset the criterion to
`{ tags: [], architect: null }`. -/
def handleHome (s : AppState) : AppState :=
  { s with view := View.search, currentSearchCriteria := ⟨[], none⟩ }

/-- `ResultsPage.handleNext`: `(prevIndex + 1) % totalImages`. -/
def handleNext (totalImages : Nat) (prevIndex : Nat) : Nat :=
  (prevIndex + 1) % totalImages

/-- `ResultsPage.handlePrevious`: JS computes
`(prevIndex - 1 + totalImages) % totalImages`; for `0 ≤ prevIndex` and
`1 ≤ totalImages` this value equals `(prevIndex + totalImages - 1) %
totalImages`, which is the same expression reassociated to stay inside `Nat`. -/
def handlePrevious (totalImages : Nat) (prevIndex : Nat) : Nat :=
  (prevIndex + totalImages - 1) % totalImages

/-- `SearchPage.handleTagSelect` on the selected-tag set: copy the set,
delete the tag when present, add it when absent. The JS `Set` is embedded
as its insertion-ordered, duplicate-free element list; `add` appends. -/
def handleTagSelect (tag : String) (selectedTags : List String) : List String :=
  if selectedTags.contains tag then selectedTags.erase tag
  else selectedTags ++ [tag]

/-- `ResultsPage.handleSidebarTagSelect`: the same toggle on the sidebar
selection set. -/
def handleSidebarTagSelect (tag : String) (sidebarSelectedTags : List String) : List String :=
  if sidebarSelectedTags.contains tag then sidebarSelectedTags.erase tag
  else sidebarSelectedTags ++ [tag]

/-- `ArchitectSelector.handleChange`: selecting the already-selected
architect clears the selection (`onArchitectSelect(null)`), anything else
replaces it. -/
def handleChange (selectedArchitect : Option String) (architect : Option String) : Option String :=
  if selectedArchitect == architect then none else architect

/-- `ResultsPage.handleSidebarArchitectSelect`: the same toggle on the
sidebar architect selection. -/
def handleSidebarArchitectSelect (sidebarSelectedArchitect : Option String)
    (architect : Option String) : Option String :=
  if sidebarSelectedArchitect == architect then none else architect

/-- `Array.filter(Boolean)` over mapped `img.architect` values: drops
`null`/`undefined` and the empty string (the falsy strings). -/
def filterBoolean (l : List (Option String)) : List String :=
  l.filterMap (fun o =>
    match o with
    | some s => if s == "" then none else some s
    | none => none)

/-- The architect option list computed identically in `FilterSentence`,
`SearchPage` and `ResultsPage`:
`[...new Set(images.map(img => img.architect).filter(Boolean))].sort()`.
`new Set` deduplicates (`dedup`; which duplicate survives is immaterial
once sorted) and `.sort()` sorts lexicographically (`insertionSort` by
string order). -/
def distinctArchitects (images : List ImageRecord) : List String :=
  List.insertionSort (· ≤ ·) (filterBoolean (images.map (fun img => img.architect))).dedup

/-! ## Helper lemmas -/

/-- The early-return structure of the filter predicate is the conjunction of
the architect check and the tag-containment check. -/
theorem matchesCriterion_eq_and (c : Criterion) (img : ImageRecord) :
    matchesCriterion c img =
      ((!(jsOptTruthy c.architect) || (img.architect == c.architect)) &&
        c.tags.all (fun tag => img.tags.contains tag)) := by
  unfold matchesCriterion
  cases h1 : (!(jsOptTruthy c.architect) || (img.architect == c.architect)) <;>
    cases h2 : c.tags.all (fun tag => img.tags.contains tag) <;> simp [h1, h2]

/-- Iterating `handleNext` advances the cursor modulo the list length. -/
theorem handleNext_iterate (N k j : Nat) (hj : j < N) :
    (handleNext N)^[k] j = (j + k) % N := by
  induction k with
  | zero => simp [Nat.mod_eq_of_lt hj]
  | succ k ih =>
    rw [Function.iterate_succ_apply', ih]
    unfold handleNext
    rw [Nat.mod_add_mod, Nat.add_assoc]

/-! ## C1: the filter predicate -/

/-- C1 counterexample: the criterion `{tags: [], architect: ""}` (an
empty-string architect) matches an image whose architect is `"X"`, because
`!criteria.architect` treats the empty string like `null`; the claim as
stated requires `img.architect == c.architect` for every non-null
`c.architect`, which fails here. -/
theorem matchesCriterion_claim_counterexample :
    matchesCriterion ⟨[], some ""⟩ ⟨"u", some "X", ["T"]⟩ = true ∧
    ¬((Criterion.mk [] (some "")).architect = none ∨
      (ImageRecord.mk "u" (some "X") ["T"]).architect =
        (Criterion.mk [] (some "")).architect) := by
  decide

/-- C1 (amended): the filter predicate is true iff (`c.architect` is null
or the empty string, or `img.architect` equals `c.architect`) and every tag
in `c.tags` is present in `img.tags`; in particular the empty criterion
matches every image. -/
theorem matchesCriterion_iff_spec (img : ImageRecord) (c : Criterion) :
    (matchesCriterion c img = true ↔
      ((c.architect = none ∨ c.architect = some "" ∨ img.architect = c.architect) ∧
        ∀ t ∈ c.tags, t ∈ img.tags)) ∧
    matchesCriterion ⟨[], none⟩ img = true := by
  constructor
  · rw [matchesCriterion_eq_and]
    rcases c with ⟨tags, arch⟩
    rcases arch with _ | a
    · simp [jsOptTruthy, List.contains]
    · by_cases ha : a = ""
      · subst ha
        simp [jsOptTruthy, List.contains]
      · have hb : (a == "") = false := by simpa using ha
        simp [jsOptTruthy, hb, List.contains, ha]
  · rw [matchesCriterion_eq_and]
    simp [jsOptTruthy]

/-! ## C10: Home -/

/-- C10: `handleHome` returns the view to the search page, resets the
active criterion to the empty criterion, and leaves the loaded dataset
unchanged. -/
theorem handleHome_spec (s : AppState) :
    (handleHome s).view = View.search ∧
    (handleHome s).currentSearchCriteria = ⟨[], none⟩ ∧
    (handleHome s).images = s.images :=
  ⟨rfl, rfl, rfl⟩

/-! ## C8: architect selection toggle -/

/-- C8: in both the search-page `ArchitectSelector` and the results
sidebar, selecting the already-selected architect clears the selection to
null, and selecting an architect different from the current selection
replaces the selection with it. -/
theorem architectToggle (x : String) (cur : Option String) :
    (handleChange (some x) (some x) = none ∧
      handleSidebarArchitectSelect (some x) (some x) = none) ∧
    (cur ≠ some x →
      handleChange cur (some x) = some x ∧
      handleSidebarArchitectSelect cur (some x) = some x) := by
  constructor
  · constructor <;> simp [handleChange, handleSidebarArchitectSelect]
  · intro h
    constructor <;> simp [handleChange, handleSidebarArchitectSelect, h]

/-- C8 witness: with `"B"` currently selected, selecting `"A"` replaces the
selection, and selecting `"B"` again clears it. -/
theorem architectToggle_witness :
    (some "B" : Option String) ≠ some "A" ∧
    handleChange (some "B") (some "A") = some "A" ∧
    handleChange (some "B") (some "B") = none :=
  ⟨by decide, ((architectToggle "A" (some "B")).2 (by decide)).1,
    (architectToggle "B" (some "B")).1.1⟩

/-! ## C2: commit validation -/

/-- C2 counterexample: a zero-match commit from the refine sidebar leaves
the active criterion and view unchanged, but the error it surfaces is
`"No images found matching the selected filters."`, not the claimed
`"No images found matching the selected criteria."`. -/
theorem updateSearch_message_counterexample :
    (handleUpdateSearch ["Z"] none
        ⟨[⟨"u", some "A", ["T"]⟩], View.results, ⟨["T"], none⟩, 0,
          none, none, true, false, none⟩).sidebarSearchError =
      some "No images found matching the selected filters." ∧
    (handleUpdateSearch ["Z"] none
        ⟨[⟨"u", some "A", ["T"]⟩], View.results, ⟨["T"], none⟩, 0,
          none, none, true, false, none⟩).currentSearchCriteria = ⟨["T"], none⟩ ∧
    (handleUpdateSearch ["Z"] none
        ⟨[⟨"u", some "A", ["T"]⟩], View.results, ⟨["T"], none⟩, 0,
          none, none, true, false, none⟩).view = View.results ∧
    (some "No images found matching the selected filters." : Option String) ≠
      some "No images found matching the selected criteria." := by
  decide

/-- C2 (amended): committing a candidate whose match count against the full
image list is 0 leaves the active criterion and view unchanged and surfaces
the submitting surface's local error (`"...selected criteria."` on the
search page, `"...selected filters."` on the refine sidebar); committing a
candidate with match count at least 1 sets the active criterion to the
candidate and the view to the results view. -/
theorem commitValidation (s : AppState) (c : Criterion) (tags : List String)
    (arch : Option String) :
    ((s.images.filter (fun img => matchesCriterion c img)).length = 0 →
      (searchPageHandleSearch c s).currentSearchCriteria = s.currentSearchCriteria ∧
      (searchPageHandleSearch c s).view = s.view ∧
      (searchPageHandleSearch c s).searchError =
        some "No images found matching the selected criteria.") ∧
    (0 < (s.images.filter (fun img => matchesCriterion c img)).length →
      (searchPageHandleSearch c s).currentSearchCriteria = c ∧
      (searchPageHandleSearch c s).view = View.results) ∧
    ((s.images.filter (fun img => matchesCriterion (⟨tags, arch⟩ : Criterion) img)).length = 0 →
      (handleUpdateSearch tags arch s).currentSearchCriteria = s.currentSearchCriteria ∧
      (handleUpdateSearch tags arch s).view = s.view ∧
      (handleUpdateSearch tags arch s).sidebarSearchError =
        some "No images found matching the selected filters.") ∧
    (0 < (s.images.filter (fun img => matchesCriterion (⟨tags, arch⟩ : Criterion) img)).length →
      (handleUpdateSearch tags arch s).currentSearchCriteria = ⟨tags, arch⟩ ∧
      (handleUpdateSearch tags arch s).view = View.results) := by
  refine ⟨fun h => ?_, fun h => ?_, fun h => ?_, fun h => ?_⟩ <;>
    simp [searchPageHandleSearch, handleUpdateSearch, appHandleSearch, h]

/-- C2 witness: on a one-image dataset, a zero-match candidate leaves state
unchanged with the surface's error, and a matching candidate commits. -/
theorem commitValidation_witness :
    (searchPageHandleSearch ⟨["Z"], none⟩
        ⟨[⟨"u", some "A", ["T"]⟩], View.search, ⟨[], none⟩, 5,
          none, none, false, false, none⟩).searchError =
      some "No images found matching the selected criteria." ∧
    (searchPageHandleSearch ⟨["T"], none⟩
        ⟨[⟨"u", some "A", ["T"]⟩], View.search, ⟨[], none⟩, 5,
          none, none, false, false, none⟩).view = View.results ∧
    (handleUpdateSearch ["Z"] none
        ⟨[⟨"u", some "A", ["T"]⟩], View.search, ⟨[], none⟩, 5,
          none, none, false, false, none⟩).sidebarSearchError =
      some "No images found matching the selected filters." ∧
    (handleUpdateSearch ["T"] none
        ⟨[⟨"u", some "A", ["T"]⟩], View.search, ⟨[], none⟩, 5,
          none, none, false, false, none⟩).view = View.results :=
  ⟨((commitValidation _ ⟨["Z"], none⟩ ["Z"] none).1 (by decide)).2.2,
    ((commitValidation _ ⟨["T"], none⟩ ["T"] none).2.1 (by decide)).2,
    ((commitValidation _ ⟨["Z"], none⟩ ["Z"] none).2.2.1 (by decide)).2.2,
    ((commitValidation _ ⟨["T"], none⟩ ["T"] none).2.2.2 (by decide)).2⟩

/-! ## C3: the confirmed tag pivot commits without validation -/

/-- C3 counterexample: confirming a pivot on tag `"Y"`, which matches zero
images, still replaces the active criterion (the code commits the pivot
with no match-count evaluation), contradicting the claim that such a pivot
leaves the active criterion unchanged. -/
theorem confirmNewSearch_no_validation_counterexample :
    (filteredImages [⟨"u", some "A", ["X"]⟩] ⟨["Y"], none⟩).length = 0 ∧
    (confirmNewSearch
        ⟨[⟨"u", some "A", ["X"]⟩], View.results, ⟨["X"], none⟩, 0,
          none, none, false, true, some "Y"⟩).currentSearchCriteria = ⟨["Y"], none⟩ ∧
    (⟨["Y"], none⟩ : Criterion) ≠ ⟨["X"], none⟩ := by
  decide

/-- C3 (amended): confirming a pivot on a truthy pending tag commits the
fresh criterion `{tags: [t], architect: null}` unconditionally — no
match-count validation runs on this path — and sets the view to results;
whenever the tag comes from an image of the list (as it does in the UI,
where it is taken from the current image), that criterion matches at least
one image, so the outcome coincides with the validate-then-commit path. -/
theorem confirmNewSearch_commits (s : AppState) (t : String)
    (hp : s.tagToSearch = some t) (ht : t ≠ "") :
    (confirmNewSearch s).currentSearchCriteria = ⟨[t], none⟩ ∧
    (confirmNewSearch s).view = View.results ∧
    (∀ img ∈ s.images, t ∈ img.tags →
      0 < (filteredImages s.images ⟨[t], none⟩).length) := by
  have hb : (t == "") = false := by simpa using ht
  refine ⟨?_, ?_, ?_⟩
  · simp [confirmNewSearch, hp, hb, appHandleSearch]
  · simp [confirmNewSearch, hp, hb, appHandleSearch]
  · intro img hmem htag
    have hm : matchesCriterion ⟨[t], none⟩ img = true := by
      rw [matchesCriterion_eq_and]
      simp [jsOptTruthy, List.contains, htag]
    exact List.length_pos_iff_exists_mem.mpr
      ⟨img, List.mem_filter.mpr ⟨hmem, hm⟩⟩

/-- C3 witness: a pivot on tag `"T"`, listed on the single image of the
dataset, replaces the active criterion with `{tags: ["T"], architect: null}`
and its match count is positive. -/
theorem confirmNewSearch_commits_witness :
    (confirmNewSearch
        ⟨[⟨"u", some "A", ["T"]⟩], View.results, ⟨["X"], none⟩, 2,
          none, none, false, true, some "T"⟩).currentSearchCriteria = ⟨["T"], none⟩ ∧
    0 < (filteredImages [⟨"u", some "A", ["T"]⟩] ⟨["T"], none⟩).length :=
  ⟨(confirmNewSearch_commits _ "T" rfl (by decide)).1,
    (confirmNewSearch_commits
        (⟨[⟨"u", some "A", ["T"]⟩], View.results, ⟨["X"], none⟩, 2,
          none, none, false, true, some "T"⟩ : AppState) "T" rfl (by decide)).2.2
      ⟨"u", some "A", ["T"]⟩ (by decide) (by decide)⟩

/-! ## C4: shape of the pivot criterion -/

/-- C4 counterexample: with the empty string as pending tag (JS truthiness
makes `if (tagToSearch)` false), confirming commits nothing: the active
criterion stays `{tags: ["X"], architect: "A"}` instead of the claimed
`{tags: [""], architect: null}`. -/
theorem confirmNewSearch_empty_tag_counterexample :
    (confirmNewSearch
        ⟨[⟨"u", some "A", ["X"]⟩], View.results, ⟨["X"], some "A"⟩, 0,
          none, none, false, true, some ""⟩).currentSearchCriteria = ⟨["X"], some "A"⟩ ∧
    (⟨["X"], some "A"⟩ : Criterion) ≠ ⟨[""], none⟩ := by
  decide

/-- C4 (amended): for every nonempty pending tag `t`, confirming the pivot
produces a criterion exactly equal to `{tags: [t], architect: null}`,
whatever tags and architect the previously active criterion contained;
when the pending tag is the empty string the confirm commits nothing. -/
theorem confirmNewSearch_pivot_criterion (s : AppState) (t : String)
    (hp : s.tagToSearch = some t) (ht : t ≠ "") :
    (confirmNewSearch s).currentSearchCriteria = ⟨[t], none⟩ := by
  have hb : (t == "") = false := by simpa using ht
  simp [confirmNewSearch, hp, hb, appHandleSearch]

/-- C4 witness: pivoting on `"W"` from an active criterion with two tags
and an architect yields exactly `{tags: ["W"], architect: null}`. -/
theorem confirmNewSearch_pivot_criterion_witness :
    (confirmNewSearch
        ⟨[⟨"v", some "B", ["W"]⟩], View.results, ⟨["X", "Y"], some "B"⟩, 1,
          none, none, false, true, some "W"⟩).currentSearchCriteria = ⟨["W"], none⟩ :=
  confirmNewSearch_pivot_criterion _ "W" rfl (by decide)

/-! ## C5: navigator wraparound -/

/-- C5: for a filtered image list of length `N > 0` and cursor `i < N`,
applying `handleNext` `N` times returns the cursor to `i`; `handlePrevious`
from index `0` yields `N - 1`; and when `N = 1` both operations leave the
index at `0`. -/
theorem navigatorWraparound (images : List ImageRecord) (c : Criterion) (i : Nat)
    (hN : 0 < (filteredImages images c).length)
    (hi : i < (filteredImages images c).length) :
    (handleNext (filteredImages images c).length)^[(filteredImages images c).length] i = i ∧
    handlePrevious (filteredImages images c).length 0 =
      (filteredImages images c).length - 1 ∧
    ((filteredImages images c).length = 1 →
      handleNext 1 0 = 0 ∧ handlePrevious 1 0 = 0) := by
  refine ⟨?_, ?_, fun _ => ⟨rfl, rfl⟩⟩
  · rw [handleNext_iterate _ _ _ hi, Nat.add_mod_right]
    exact Nat.mod_eq_of_lt hi
  · unfold handlePrevious
    rw [Nat.zero_add]
    exact Nat.mod_eq_of_lt (Nat.sub_lt hN Nat.one_pos)

/-- C5 witness: on the two-image filtered list, two `next` calls return the
cursor from `1` to `1`, and `previous` from `0` yields `1`. -/
theorem navigatorWraparound_witness :
    0 < (filteredImages [⟨"u", none, ["T"]⟩, ⟨"v", none, ["T"]⟩] ⟨["T"], none⟩).length ∧
    1 < (filteredImages [⟨"u", none, ["T"]⟩, ⟨"v", none, ["T"]⟩] ⟨["T"], none⟩).length ∧
    ((handleNext
        (filteredImages [⟨"u", none, ["T"]⟩, ⟨"v", none, ["T"]⟩] ⟨["T"], none⟩).length)^[
      (filteredImages [⟨"u", none, ["T"]⟩, ⟨"v", none, ["T"]⟩] ⟨["T"], none⟩).length] 1 = 1 ∧
      handlePrevious
        (filteredImages [⟨"u", none, ["T"]⟩, ⟨"v", none, ["T"]⟩] ⟨["T"], none⟩).length 0 =
        (filteredImages [⟨"u", none, ["T"]⟩, ⟨"v", none, ["T"]⟩] ⟨["T"], none⟩).length - 1 ∧
      ((filteredImages [⟨"u", none, ["T"]⟩, ⟨"v", none, ["T"]⟩] ⟨["T"], none⟩).length = 1 →
        handleNext 1 0 = 0 ∧ handlePrevious 1 0 = 0)) :=
  ⟨by decide, by decide,
    navigatorWraparound [⟨"u", none, ["T"]⟩, ⟨"v", none, ["T"]⟩] ⟨["T"], none⟩ 1
      (by decide) (by decide)⟩

/-! ## C6: cursor reset on criterion change -/

/-- C6: every successful commit path — search-page submit, sidebar Update
Search, and confirmed tag pivot — resets the results navigation cursor to
`0`, for every prior cursor value. -/
theorem cursorReset (s : AppState) (c : Criterion) (tags : List String)
    (arch : Option String) (t : String) :
    (0 < (s.images.filter (fun img => matchesCriterion c img)).length →
      (searchPageHandleSearch c s).currentIndex = 0) ∧
    (0 < (s.images.filter (fun img => matchesCriterion (⟨tags, arch⟩ : Criterion) img)).length →
      (handleUpdateSearch tags arch s).currentIndex = 0) ∧
    (s.tagToSearch = some t → t ≠ "" → (confirmNewSearch s).currentIndex = 0) := by
  refine ⟨fun h => ?_, fun h => ?_, fun hp ht => ?_⟩
  · simp [searchPageHandleSearch, appHandleSearch, h]
  · simp [handleUpdateSearch, appHandleSearch, h]
  · have hb : (t == "") = false := by simpa using ht
    simp [confirmNewSearch, hp, hb, appHandleSearch]

/-- C6 witness: from cursor `7`, each of the three commit paths lands on
cursor `0`. -/
theorem cursorReset_witness :
    (searchPageHandleSearch ⟨["T"], none⟩
        ⟨[⟨"u", some "A", ["T"]⟩], View.results, ⟨["T"], none⟩, 7,
          none, none, true, true, some "T"⟩).currentIndex = 0 ∧
    (handleUpdateSearch ["T"] none
        ⟨[⟨"u", some "A", ["T"]⟩], View.results, ⟨["T"], none⟩, 7,
          none, none, true, true, some "T"⟩).currentIndex = 0 ∧
    (confirmNewSearch
        ⟨[⟨"u", some "A", ["T"]⟩], View.results, ⟨["T"], none⟩, 7,
          none, none, true, true, some "T"⟩).currentIndex = 0 :=
  ⟨(cursorReset _ ⟨["T"], none⟩ ["T"] none "T").1 (by decide),
    (cursorReset
        (⟨[⟨"u", some "A", ["T"]⟩], View.results, ⟨["T"], none⟩, 7,
          none, none, true, true, some "T"⟩ : AppState) ⟨["T"], none⟩ ["T"] none "T").2.1
      (by decide),
    (cursorReset
        (⟨[⟨"u", some "A", ["T"]⟩], View.results, ⟨["T"], none⟩, 7,
          none, none, true, true, some "T"⟩ : AppState) ⟨["T"], none⟩ ["T"] none "T").2.2
      rfl (by decide)⟩

/-! ## C7: tag toggle applied twice -/

/-- C7: on a duplicate-free selection (the `Set` invariant), toggling a tag
twice in succession returns the selected-tag set to its original state (as
a set: the results are permutations of the original selection), on the
search page and on the results sidebar alike. -/
theorem toggleTag_twice (t : String) (sel : List String) (h : sel.Nodup) :
    (handleTagSelect t (handleTagSelect t sel)).Perm sel ∧
    (handleSidebarTagSelect t (handleSidebarTagSelect t sel)).Perm sel := by
  have core : (handleTagSelect t (handleTagSelect t sel)).Perm sel := by
    by_cases hmem : t ∈ sel
    · have hc : sel.contains t = true := by simpa [List.contains] using hmem
      have h1 : handleTagSelect t sel = sel.erase t := by
        unfold handleTagSelect; rw [if_pos hc]
      have hnot : t ∉ sel.erase t := h.not_mem_erase
      have hc2 : ¬((sel.erase t).contains t = true) := by
        simpa [List.contains] using hnot
      have h2 : handleTagSelect t (sel.erase t) = sel.erase t ++ [t] := by
        unfold handleTagSelect; rw [if_neg hc2]
      rw [h1, h2]
      exact (List.perm_append_singleton t _).trans (List.perm_cons_erase hmem).symm
    · have hc : ¬(sel.contains t = true) := by simpa [List.contains] using hmem
      have h1 : handleTagSelect t sel = sel ++ [t] := by
        unfold handleTagSelect; rw [if_neg hc]
      have hc2 : (sel ++ [t]).contains t = true := by simp [List.contains]
      have h2 : handleTagSelect t (sel ++ [t]) = sel := by
        unfold handleTagSelect
        rw [if_pos hc2, List.erase_append_right _ hmem,
          List.erase_cons_head, List.append_nil]
      rw [h1, h2]
  exact ⟨core, core⟩

/-- C7 witness: toggling `"T"` twice on the selection `["A", "T", "B"]`
returns it, as a set, to the original selection. -/
theorem toggleTag_twice_witness :
    (["A", "T", "B"] : List String).Nodup ∧
    (handleTagSelect "T" (handleTagSelect "T" ["A", "T", "B"])).Perm ["A", "T", "B"] :=
  ⟨by decide, (toggleTag_twice "T" ["A", "T", "B"] (by decide)).1⟩

/-! ## C9: the distinct-architect list -/

/-- C9 counterexample: an image whose `architect` field is present but
equal to the empty string contributes nothing to the architect option list
(`filter(Boolean)` drops the falsy empty string), so a non-absent architect
value appears zero times in the list, not exactly once as claimed. -/
theorem distinctArchitects_empty_string_counterexample :
    distinctArchitects [⟨"u", some "", ["T"]⟩] = [] ∧
    (ImageRecord.mk "u" (some "") ["T"]).architect ≠ none := by
  exact ⟨rfl, by decide⟩

/-- C9 (amended): the architect option list is sorted, duplicate-free, and
contains exactly the nonempty architect values present in some image
record — each such value appears exactly once; present-but-empty architect
strings are dropped by `filter(Boolean)`. -/
theorem distinctArchitects_spec (images : List ImageRecord) :
    (distinctArchitects images).Sorted (· ≤ ·) ∧
    (distinctArchitects images).Nodup ∧
    (∀ a : String, a ∈ distinctArchitects images ↔
      (a ≠ "" ∧ ∃ img ∈ images, img.architect = some a)) := by
  refine ⟨List.sorted_insertionSort _ _, ?_, ?_⟩
  · exact ((List.perm_insertionSort _ _).nodup_iff).mpr (List.nodup_dedup _)
  · intro a
    unfold distinctArchitects
    rw [(List.perm_insertionSort _ _).mem_iff, List.mem_dedup]
    unfold filterBoolean
    rw [List.mem_filterMap]
    constructor
    · rintro ⟨o, ho, hoa⟩
      cases o with
      | none => simp at hoa
      | some v =>
        have hoa2 : (if (v == "") = true then (none : Option String) else some v) =
            some a := hoa
        by_cases hv : v = ""
        · rw [if_pos (by simpa using hv)] at hoa2
          simp at hoa2
        · rw [if_neg (by simpa using hv)] at hoa2
          have hva : v = a := by simpa using hoa2
          obtain ⟨img, himg, harch⟩ := List.mem_map.mp ho
          exact ⟨hva ▸ hv, img, himg, by rw [harch, hva]⟩
    · rintro ⟨ha, img, himg, harch⟩
      refine ⟨some a, List.mem_map.mpr ⟨img, himg, harch⟩, ?_⟩
      show (if (a == "") = true then (none : Option String) else some a) = some a
      rw [if_neg (by simpa using ha)]
